import Mathlib

/-!
# Verification of the Volatility-Forecaster core against its specification

Shallow embedding, over exact real arithmetic, of the parts of
`data_utils.py` and `python_app/garch_models.py` that the specification
talks about.  Floating-point values are modelled as real numbers; a `NaN`
produced by `numpy`/`pandas` (and later removed by `dropna`) is modelled
as `none : Option ℝ`.  Calls into external libraries (`arch`,
`numpy.linalg.solve`, `scipy.stats.chi2`) are modelled as explicit
function parameters, so the theorems quantify over every behaviour the
library could have.
-/

open Classical

noncomputable section

namespace DataUtils

/-- One entry of `np.log(prices / prices.shift(1))` in
`DataProcessor.calculate_returns` (`data_utils.py` line 85): the log
return from price `prev` to price `cur`.  A non-positive ratio makes
`np.log` produce a non-finite value (`NaN` for a negative ratio), which
`dropna` removes; this is modelled as `none`.  Lean's convention
`x / 0 = 0` folds a zero previous price (an infinity in `numpy`) into
`none` as well; no claim exercises a zero price. -/
def logRetStep (prev cur : ℝ) : Option ℝ :=
  if cur / prev ≤ 0 then none else some (Real.log (cur / prev))

/-- The `log_returns` series of `DataProcessor.calculate_returns`
(`data_utils.py` lines 84-88): `np.log(prices / prices.shift(1))`
followed by `.dropna()`.  `prices.zip prices.tail` pairs each price with
its predecessor; the leading `NaN` coming from `shift(1)` never appears
because the zip starts at the second price. -/
def log_returns (prices : List ℝ) : List ℝ :=
  ((prices.zip prices.tail).map (fun pq => logRetStep pq.1 pq.2)).filterMap id

/-- Price-column selection of `DataProcessor.calculate_returns`
(`data_utils.py` lines 76-82): prefer the `Adj Close` column, then the
`Close` column, then fall back to the last column of the frame
(`price_data.iloc[:, -1]`).  An empty frame makes that `iloc` raise,
which the enclosing `except` turns into `None`; this is the `none` case.
A data frame is modelled as its ordered list of named columns. -/
def select_price_column (price_data : List (String × List ℝ)) : Option (List ℝ) :=
  match price_data.lookup "Adj Close" with
  | some prices => some prices
  | none =>
    match price_data.lookup "Close" with
    | some prices => some prices
    | none => price_data.getLast?.map Prod.snd

/-- `DataProcessor.calculate_returns` (`data_utils.py` lines 61-104),
projected onto the `log_returns` column of the returned data frame (the
only column the rest of the repository consumes).  The function performs
no validation of its own: it only fails (returns `None`) when the column
selection itself raises, i.e. on a frame with no columns. -/
def calculate_returns (price_data : List (String × List ℝ)) : Option (List ℝ) :=
  match select_price_column price_data with
  | none => none
  | some prices => some (log_returns prices)

end DataUtils

namespace GarchModels

/-- The fields of the fitted-model object returned by the external
`arch` library's `fit` call that `garch_models.py` reads:
`resid`, `conditional_volatility`, `params`, `aic`, `bic`,
`loglikelihood` and `nobs`.  All values are in the units of the series
the library was fitted on (the 100x-scaled returns). -/
structure FittedModel where
  resid : List ℝ
  conditional_volatility : List ℝ
  params : List (String × ℝ)
  aic : ℝ
  bic : ℝ
  loglikelihood : ℝ
  nobs : ℕ

/-- The arguments `GARCHModel.fit_garch` passes to the external
`arch_model` constructor (`garch_models.py` lines 53-59). -/
structure ModelSpec where
  returns_scaled : List ℝ
  p : ℕ
  q : ℕ
  dist : String

/-- Python exceptions arising in the embedded code: `ValueError` raised
by `fit_garch`'s own length check, `numpy.linalg.LinAlgError`, and any
error raised inside the external `arch` library. -/
inductive PyError where
  | valueError (msg : String)
  | linAlgError
  | libraryError (msg : String)

/-- Instance state of a `GARCHModel` object (`garch_models.py` lines
16-19): the attributes `self.model` and `self.fitted_model`.
`fit_garch` is the only method that writes them and no method reads
them; every other method receives the fitted model as an explicit
argument. -/
structure GARCHModelState where
  model : Option ModelSpec
  fitted_model : Option FittedModel

/-- The state `GARCHModel.__init__` establishes: both attributes `None`. -/
def initState : GARCHModelState := { model := none, fitted_model := none }

/-- Message of the `ValueError` raised at `garch_models.py` line 47. -/
def insufficientDataMsg : String :=
  "Insufficient data for GARCH modeling (minimum 50 observations required)"

/-- Body of the `try` block of `GARCHModel.fit_garch` (`garch_models.py`
lines 41-64): drop `NaN` entries, raise `ValueError` when fewer than 50
observations remain, scale the clean returns by 100, store the model
specification in `self.model`, call the external library's fit (the
parameter `fitLib`) and store and return its result.  The pair is
(instance state on exit, normal return or raised exception). -/
def fit_garch_body (fitLib : ModelSpec → Except PyError FittedModel)
    (st : GARCHModelState) (returns : List (Option ℝ)) (p q : ℕ) (dist : String) :
    GARCHModelState × Except PyError FittedModel :=
  let returns_clean := returns.filterMap id
  if returns_clean.length < 50 then
    (st, Except.error (PyError.valueError insufficientDataMsg))
  else
    let spec : ModelSpec :=
      { returns_scaled := returns_clean.map (fun r => r * 100), p := p, q := q, dist := dist }
    match fitLib spec with
    | Except.error e => ({ st with model := some spec }, Except.error e)
    | Except.ok fm => ({ model := some spec, fitted_model := some fm }, Except.ok fm)

/-- `GARCHModel.fit_garch` (`garch_models.py` lines 21-68): the `try`
body above wrapped in the `except` clause of lines 66-68, which prints
the error message and returns `None`, erasing the error's identity. -/
def fit_garch (fitLib : ModelSpec → Except PyError FittedModel)
    (st : GARCHModelState) (returns : List (Option ℝ)) (p q : ℕ) (dist : String) :
    GARCHModelState × Option FittedModel :=
  let r := fit_garch_body fitLib st returns p q dist
  (r.1, r.2.toOption)

/-- Result record of `GARCHModel.forecast_volatility` (`garch_models.py`
lines 99-103). -/
structure ForecastResult where
  volatility_forecast : List ℝ
  variance_forecast : List ℝ
  forecast_horizon : ℕ

/-- `GARCHModel.forecast_volatility` (`garch_models.py` lines 70-107).
The external `arch` forecast call (line 87-90, simulation with 1000
paths followed by extracting the last row of the variance table) is the
parameter `forecastLib`; `none` models an exception inside it, which the
`except` clause turns into `None`.  The variance row is converted to
volatility with `np.sqrt` and both vectors are divided back out of the
percentage scale (volatility by 100, variance by 10000, lines 93-97). -/
def forecast_volatility (forecastLib : FittedModel → ℕ → Option (List ℝ))
    (fm : FittedModel) (horizon : ℕ) : Option ForecastResult :=
  match forecastLib fm horizon with
  | none => none
  | some variance_forecast =>
      some { volatility_forecast := variance_forecast.map (fun v => Real.sqrt v / 100)
             variance_forecast := variance_forecast.map (fun v => v / 10000)
             forecast_horizon := horizon }

/-- Result record of `GARCHModel.get_model_summary` (`garch_models.py`
lines 136-142). -/
structure ModelSummary where
  parameters : List (String × ℝ)
  aic : ℝ
  bic : ℝ
  loglikelihood : ℝ
  num_observations : ℕ

/-- `GARCHModel.get_model_summary` (`garch_models.py` lines 109-146):
copies `params`, `aic`, `bic`, `loglikelihood` and `nobs` of the fitted
model into a dictionary, applying no transformation whatsoever; the
`except` clause is unreachable for a well-formed fitted model. -/
def get_model_summary (fm : FittedModel) : Option ModelSummary :=
  some { parameters := fm.params
         aic := fm.aic
         bic := fm.bic
         loglikelihood := fm.loglikelihood
         num_observations := fm.nobs }

/-- Follows the claim's words, not the source (refinement target for the
rescaling claim): the summary with every reported quantity converted
back from the 100x-scaled fit to original return units — the variance
intercept `omega` divided by 100^2, the mean `mu` divided by 100, and
log-likelihood, AIC and BIC shifted by the `N·ln 100` change-of-variable
term of the scaled density. -/
def get_model_summary_rescaled (fm : FittedModel) : Option ModelSummary :=
  some { parameters := fm.params.map (fun nv =>
           (nv.1, if nv.1 = "omega" then nv.2 / 10000
                  else if nv.1 = "mu" then nv.2 / 100 else nv.2))
         aic := fm.aic - 2 * (fm.nobs : ℝ) * Real.log 100
         bic := fm.bic - (fm.nobs : ℝ) * Real.log 100 * 2
         loglikelihood := fm.loglikelihood + (fm.nobs : ℝ) * Real.log 100
         num_observations := fm.nobs }

/-- `GARCHModel.calculate_residuals` (`garch_models.py` lines 148-173):
standardized residuals, the elementwise quotient of the fitted model's
residuals by its conditional volatility. -/
def calculate_residuals (fm : FittedModel) : List ℝ :=
  List.zipWith (fun r s => r / s) fm.resid fm.conditional_volatility

/-- Squared standardized residuals, `std_residuals ** 2`
(`garch_models.py` lines 200 and 252). -/
def squaredStdResid (fm : FittedModel) : List ℝ :=
  (calculate_residuals fm).map (fun z => z ^ 2)

/-- Sample mean of a series, as `pandas`/`numpy` compute it. -/
def seriesMean (xs : List ℝ) : ℝ := xs.sum / xs.length

/-- Pearson correlation of two paired series, as `pandas`'
`Series.corr` computes it. -/
def pearsonCorr (xs ys : List ℝ) : ℝ :=
  let mx := seriesMean xs
  let my := seriesMean ys
  (((xs.zip ys).map (fun p => (p.1 - mx) * (p.2 - my))).sum) /
    (Real.sqrt ((xs.map (fun x => (x - mx) ^ 2)).sum) *
      Real.sqrt ((ys.map (fun y => (y - my) ^ 2)).sum))

/-- `pandas`' `Series.autocorr(lag)` (`garch_models.py` line 207): the
Pearson correlation of the series with its lag-shifted self, i.e. of the
pairs `(x_t, x_(t-lag))` for `t = lag, …, n-1`. -/
def autocorrLag (xs : List ℝ) (lag : ℕ) : ℝ :=
  pearsonCorr (xs.drop lag) (xs.take (xs.length - lag))

/-- Ljung-Box statistic of `GARCHModel.ljung_box_test`
(`garch_models.py` lines 203-211):
`n*(n+2) * Σ_(i=0)^(lags-1) autocorr(i+1)^2 / (n-i-1)`. -/
def ljung_box_stat (z2 : List ℝ) (lags : ℕ) : ℝ :=
  (z2.length : ℝ) * ((z2.length : ℝ) + 2) *
    ∑ i ∈ Finset.range lags,
      (autocorrLag z2 (i + 1)) ^ 2 / ((z2.length : ℝ) - (i : ℝ) - 1)

/-- Result record shared by both diagnostic tests (`garch_models.py`
lines 216-221 and 275-280). -/
structure TestResult where
  test_statistic : ℝ
  p_value : ℝ
  lags : ℕ
  critical_value : ℝ

/-- `GARCHModel.ljung_box_test` (`garch_models.py` lines 175-225).  The
chi-squared distribution functions of `scipy.stats` are the parameters
`chi2cdf` (degrees of freedom, point) and `chi2ppf` (probability,
degrees of freedom).  The `except` clause is unreachable: every
computation in the body is total. -/
def ljung_box_test (chi2cdf : ℕ → ℝ → ℝ) (chi2ppf : ℝ → ℕ → ℝ)
    (fm : FittedModel) (lags : ℕ) : TestResult :=
  let squared_residuals := squaredStdResid fm
  let lb_stat := ljung_box_stat squared_residuals lags
  { test_statistic := lb_stat
    p_value := 1 - chi2cdf lags lb_stat
    lags := lags
    critical_value := chi2ppf 0.95 lags }

/-- Design-matrix entry of the ARCH-LM regression (`garch_models.py`
lines 256-259): column 0 is the intercept, column `j = i+1` holds the
slice `squared_residuals[lags-i-1 : n-i-1]`, so row `t` of column `j`
is `z²_(lags-j+t)`. -/
def archX (z2 : List ℝ) (lags t j : ℕ) : ℝ :=
  if j = 0 then 1 else z2.getD (lags - j + t) 0

/-- Dependent variable of the ARCH-LM regression (`garch_models.py`
line 261): `y[t] = z²_(lags+t)`. -/
def archY (z2 : List ℝ) (lags t : ℕ) : ℝ := z2.getD (lags + t) 0

/-- The normal-equation matrix `X.T @ X` passed to `np.linalg.solve`
(`garch_models.py` line 265). -/
def arch_XtX (z2 : List ℝ) (lags : ℕ) : Matrix (Fin (lags + 1)) (Fin (lags + 1)) ℝ :=
  Matrix.of fun j k =>
    ∑ t ∈ Finset.range (z2.length - lags), archX z2 lags t j * archX z2 lags t k

/-- The right-hand side `X.T @ y` passed to `np.linalg.solve`
(`garch_models.py` line 265). -/
def arch_Xty (z2 : List ℝ) (lags : ℕ) : Fin (lags + 1) → ℝ :=
  fun j => ∑ t ∈ Finset.range (z2.length - lags), archX z2 lags t j * archY z2 lags t

/-- Fitted value `X @ beta` of row `t` (`garch_models.py` line 266). -/
def arch_fitted (z2 : List ℝ) (lags : ℕ) (beta : Fin (lags + 1) → ℝ) (t : ℕ) : ℝ :=
  ∑ j : Fin (lags + 1), archX z2 lags t j * beta j

/-- Coefficient of determination of the ARCH-LM regression
(`garch_models.py` lines 266-269): `R² = 1 - ssr/tss`. -/
def arch_r2 (z2 : List ℝ) (lags : ℕ) (beta : Fin (lags + 1) → ℝ) : ℝ :=
  let m := z2.length - lags
  let ssr := ∑ t ∈ Finset.range m, (archY z2 lags t - arch_fitted z2 lags beta t) ^ 2
  let ybar := (∑ t ∈ Finset.range m, archY z2 lags t) / (m : ℝ)
  let tss := ∑ t ∈ Finset.range m, (archY z2 lags t - ybar) ^ 2
  1 - ssr / tss

/-- `GARCHModel.arch_lm_test` (`garch_models.py` lines 227-287).  The
linear solver of `numpy` is the parameter `solve`; `none` models a
`LinAlgError` on a singular system, which the inner `except` clause of
lines 282-283 turns into a silent `None`. -/
def arch_lm_test (chi2cdf : ℕ → ℝ → ℝ) (chi2ppf : ℝ → ℕ → ℝ) (lags : ℕ)
    (solve : Matrix (Fin (lags + 1)) (Fin (lags + 1)) ℝ → (Fin (lags + 1) → ℝ) →
      Option (Fin (lags + 1) → ℝ))
    (fm : FittedModel) : Option TestResult :=
  let z2 := squaredStdResid fm
  match solve (arch_XtX z2 lags) (arch_Xty z2 lags) with
  | none => none
  | some beta =>
      let r_squared := arch_r2 z2 lags beta
      let lm_stat := ((z2.length : ℝ) - (lags : ℝ)) * r_squared
      some { test_statistic := lm_stat
             p_value := 1 - chi2cdf lags lm_stat
             lags := lags
             critical_value := chi2ppf 0.95 lags }

/-- Modelled from the spec: the GARCH(1,1) conditional-variance
recursion σ²ₜ₊₁ = ω + α·ε²ₜ + β·σ²ₜ of §3, with the first conditional
variance σ²₁ (index 0 here) initialized to `v1` (the sample variance of
the return series or the unconditional variance, both strictly
positive).  The recursion itself runs inside the external `arch` library
when `fit_garch` calls `self.model.fit` (`garch_models.py` line 62) and
is therefore not present in the repository's sources. -/
def condVar (omega alpha beta v1 : ℝ) (eps : ℕ → ℝ) : ℕ → ℝ
  | 0 => v1
  | t + 1 => omega + alpha * (eps t) ^ 2 + beta * condVar omega alpha beta v1 eps t

end GarchModels

section WitnessData

open GarchModels

/-- Library fit stub that always raises, for witnesses. -/
def fitLibFail : ModelSpec → Except PyError FittedModel :=
  fun _ => Except.error (PyError.libraryError "fit failed")

/-- Constant chi-squared CDF stub, for witnesses. -/
def cdfZero : ℕ → ℝ → ℝ := fun _ _ => 0

/-- Constant chi-squared CDF stub with value 1/2, for witnesses. -/
def cdfHalf : ℕ → ℝ → ℝ := fun _ _ => 1 / 2

/-- Constant chi-squared quantile stub, for witnesses. -/
def ppfZero : ℝ → ℕ → ℝ := fun _ _ => 0

/-- Fitted model with standardized residuals `[1, 2, 3, 4]`, for the
Ljung-Box witness. -/
def fmW2 : FittedModel :=
  { resid := [1, 2, 3, 4], conditional_volatility := [1, 1, 1, 1],
    params := [], aic := 0, bic := 0, loglikelihood := 0, nobs := 4 }

/-- Fitted model with standardized residuals `[1, 2, 3]`, for the
ARCH-LM witness. -/
def fmW3 : FittedModel :=
  { resid := [1, 2, 3], conditional_volatility := [1, 1, 1],
    params := [], aic := 0, bic := 0, loglikelihood := 0, nobs := 3 }

/-- Fitted model whose `omega` parameter is 10000 in the scaled units,
for the rescaling counterexample. -/
def fmW4 : FittedModel :=
  { resid := [], conditional_volatility := [],
    params := [("omega", 10000)], aic := 0, bic := 0, loglikelihood := 0, nobs := 0 }

/-- Regression coefficients `[ȳ, 0]` for the ARCH-LM witness: they fit
every observation with the mean of `y`, so `R² = 0`. -/
def betaW : Fin 2 → ℝ := fun j => if j = 0 then 13 / 2 else 0

/-- Solver stub returning `betaW`, for the ARCH-LM witness. -/
def solveW : Matrix (Fin 2) (Fin 2) ℝ → (Fin 2 → ℝ) → Option (Fin 2 → ℝ) :=
  fun _ _ => some betaW

/-- Solver stub that reports a singular matrix (`LinAlgError`),
modelled as `none`. -/
def solveFail : Matrix (Fin 2) (Fin 2) ℝ → (Fin 2 → ℝ) → Option (Fin 2 → ℝ) :=
  fun _ _ => none

end WitnessData

namespace DataUtils

/-- On a chain of strictly positive prices every step ratio is positive,
so no `NaN` is produced and `dropna` removes nothing. -/
lemma log_returns_of_pos : ∀ (a : ℝ) (l : List ℝ), 0 < a → (∀ p ∈ l, 0 < p) →
    log_returns (a :: l) = ((a :: l).zip l).map (fun pq => Real.log (pq.2 / pq.1)) := by
  intro a l
  induction l generalizing a with
  | nil => intro _ _; rfl
  | cons b l ih =>
    intro ha hmem
    have hb : 0 < b := hmem b (by simp)
    have hrest : ∀ p ∈ l, 0 < p := fun p hp => hmem p (by simp [hp])
    have hstep : logRetStep a b = some (Real.log (b / a)) := by
      have : ¬ b / a ≤ 0 := not_le.mpr (div_pos hb ha)
      simp [logRetStep, this]
    have ihb := ih b hb hrest
    simp only [log_returns, List.tail_cons, List.zip_cons_cons, List.map_cons,
      List.filterMap_cons] at ihb ⊢
    simp [hstep, ihb]

/-- Telescoping product: the exponential of the summed log returns of a
positive price chain is the ratio of the last price to the first. -/
lemma exp_sum_log_ratios : ∀ (a : ℝ) (l : List ℝ), 0 < a → (∀ p ∈ l, 0 < p) →
    Real.exp ((((a :: l).zip l).map (fun pq => Real.log (pq.2 / pq.1))).sum) =
      (a :: l).getLast (List.cons_ne_nil a l) / a := by
  intro a l
  induction l generalizing a with
  | nil =>
    intro ha _
    simp [Real.exp_zero, div_self (ne_of_gt ha)]
  | cons b l ih =>
    intro ha hmem
    have hb : 0 < b := hmem b (by simp)
    have hrest : ∀ p ∈ l, 0 < p := fun p hp => hmem p (by simp [hp])
    have ihb := ih b hb hrest
    have hlast : (a :: b :: l).getLast (List.cons_ne_nil a (b :: l)) =
        (b :: l).getLast (List.cons_ne_nil b l) := by
      simp [List.getLast_cons]
    simp only [List.tail_cons, List.zip_cons_cons, List.map_cons, List.sum_cons] at ihb ⊢
    rw [Real.exp_add, ihb, hlast, Real.exp_log (div_pos hb ha)]
    have hlastpos : 0 < (b :: l).getLast (List.cons_ne_nil b l) := by
      have : (b :: l).getLast (List.cons_ne_nil b l) ∈ b :: l := List.getLast_mem _
      rcases List.mem_cons.mp this with h | h
      · rw [h]; exact hb
      · exact hrest _ h
    field_simp
    ring

/-- Every data frame with at least one column yields a result. -/
lemma select_price_column_eq_none_iff (pd : List (String × List ℝ)) :
    select_price_column pd = none ↔ pd = [] := by
  unfold select_price_column
  cases h1 : pd.lookup "Adj Close" with
  | some c =>
    simp only []
    constructor
    · intro h; exact absurd h (by simp)
    · rintro rfl; simp [List.lookup] at h1
  | none =>
    cases h2 : pd.lookup "Close" with
    | some c =>
      simp only []
      constructor
      · intro h; exact absurd h (by simp)
      · rintro rfl; simp [List.lookup] at h2
    | none =>
      simp only [Option.map_eq_none', List.getLast?_eq_none_iff]

end DataUtils

namespace DataUtils

/-- C8: for a price series of strictly positive prices the log-return
series of `calculate_returns` has length one less than the input, each
entry is `log(priceₜ / priceₜ₋₁)`, and the exponential of the summed
returns reconstructs the ratio of the last price to the first. -/
theorem calculate_returns_round_trip (a : ℝ) (l : List ℝ)
    (hpos : ∀ p ∈ a :: l, 0 < p) :
    calculate_returns [("Adj Close", a :: l)] = some (log_returns (a :: l)) ∧
    (log_returns (a :: l)).length = (a :: l).length - 1 ∧
    log_returns (a :: l) = ((a :: l).zip l).map (fun pq => Real.log (pq.2 / pq.1)) ∧
    Real.exp ((log_returns (a :: l)).sum) = (a :: l).getLast (List.cons_ne_nil a l) / a := by
  have ha : 0 < a := hpos a (by simp)
  have hl : ∀ p ∈ l, 0 < p := fun p hp => hpos p (by simp [hp])
  have hmap := log_returns_of_pos a l ha hl
  refine ⟨?_, ?_, hmap, ?_⟩
  · simp [calculate_returns, select_price_column, List.lookup]
  · rw [hmap]
    simp only [List.length_map, List.length_zip, List.length_cons]
    omega
  · rw [hmap]
    exact exp_sum_log_ratios a l ha hl

/-- Witness for `calculate_returns_round_trip` at prices `[1, 2, 4]`. -/
theorem calculate_returns_round_trip_witness :
    (∀ p ∈ [(1 : ℝ), 2, 4], 0 < p) ∧
    Real.exp ((log_returns [(1 : ℝ), 2, 4]).sum) =
      [(1 : ℝ), 2, 4].getLast (List.cons_ne_nil 1 [2, 4]) / 1 := by
  have h : ∀ p ∈ [(1 : ℝ), 2, 4], 0 < p := by
    intro p hp
    rcases List.mem_cons.mp hp with rfl | hp
    · norm_num
    rcases List.mem_cons.mp hp with rfl | hp
    · norm_num
    rcases List.mem_cons.mp hp with rfl | hp
    · norm_num
    · simp at hp
  exact ⟨h, (calculate_returns_round_trip 1 [2, 4] h).2.2.2⟩

/-- C6 counterexample: `calculate_returns` does not fail on a frame
containing a non-positive price — the two negative-ratio steps become
`NaN`, are silently dropped, and an empty return series is produced. -/
theorem calculate_returns_nonpositive_price_cex :
    calculate_returns [("Close", [1, -1, 1])] = some [] ∧
    calculate_returns [("Close", [1, -1, 1])] ≠ none := by
  have h1 : calculate_returns [("Close", ([1, -1, 1] : List ℝ))] = some [] := by
    have s1 : logRetStep (1 : ℝ) (-1) = none := by norm_num [logRetStep]
    have s2 : logRetStep (-1 : ℝ) 1 = none := by
      have : (1 : ℝ) / (-1) ≤ 0 := by norm_num
      simp [logRetStep, this]
    simp [calculate_returns, select_price_column, List.lookup, log_returns, s1, s2]
  refine ⟨h1, ?_⟩
  rw [h1]
  simp

/-- C6 amended: `calculate_returns` performs no validation at all — it
fails only on a frame with no columns, and a step with a non-positive
price ratio yields `NaN`, which is dropped rather than reported. -/
theorem calculate_returns_no_validation :
    (∀ price_data : List (String × List ℝ),
      calculate_returns price_data = none ↔ price_data = []) ∧
    (∀ prev cur : ℝ, cur / prev ≤ 0 → logRetStep prev cur = none) := by
  constructor
  · intro pd
    unfold calculate_returns
    cases h : select_price_column pd with
    | none =>
      simpa using (select_price_column_eq_none_iff pd).mp h
    | some prices =>
      simp only []
      constructor
      · intro hcontra; exact absurd hcontra (by simp)
      · rintro rfl
        rw [(select_price_column_eq_none_iff []).mpr rfl] at h
        exact Option.noConfusion h
  · intro prev cur h
    simp [logRetStep, h]

/-- Witness for `calculate_returns_no_validation`: a negative price
ratio is dropped, and only the empty frame fails. -/
theorem calculate_returns_no_validation_witness :
    (-1 : ℝ) / 1 ≤ 0 ∧ logRetStep 1 (-1) = none ∧
    calculate_returns ([] : List (String × List ℝ)) = none := by
  have h : (-1 : ℝ) / 1 ≤ 0 := by norm_num
  exact ⟨h, calculate_returns_no_validation.2 1 (-1) h,
    (calculate_returns_no_validation.1 []).mpr rfl⟩

/-- C10: the price column is selected by fixed precedence — `Adj Close`
first, then `Close`, then the last column of the frame — and
`calculate_returns` computes the log returns of whichever column was
selected. -/
theorem select_price_column_precedence (pd : List (String × List ℝ)) (c : List ℝ) :
    (pd.lookup "Adj Close" = some c → select_price_column pd = some c) ∧
    (pd.lookup "Adj Close" = none → pd.lookup "Close" = some c →
      select_price_column pd = some c) ∧
    (pd.lookup "Adj Close" = none → pd.lookup "Close" = none →
      select_price_column pd = pd.getLast?.map Prod.snd) ∧
    calculate_returns pd = (select_price_column pd).map log_returns := by
  refine ⟨?_, ?_, ?_, ?_⟩
  · intro h; simp [select_price_column, h]
  · intro h1 h2; simp [select_price_column, h1, h2]
  · intro h1 h2; simp [select_price_column, h1, h2]
  · unfold calculate_returns
    cases h : select_price_column pd <;> simp [h]

/-- Witness for `select_price_column_precedence`: with no `Adj Close`
column the `Close` column is chosen. -/
theorem select_price_column_precedence_witness :
    [("Open", [(5 : ℝ)]), ("Close", [7])].lookup "Adj Close" = none ∧
    [("Open", [(5 : ℝ)]), ("Close", [7])].lookup "Close" = some [7] ∧
    select_price_column [("Open", [(5 : ℝ)]), ("Close", [7])] = some [7] := by
  have h1 : [("Open", [(5 : ℝ)]), ("Close", [7])].lookup "Adj Close" = none := by
    simp [List.lookup]
  have h2 : [("Open", [(5 : ℝ)]), ("Close", [7])].lookup "Close" = some [7] := by
    simp [List.lookup]
  exact ⟨h1, h2, (select_price_column_precedence _ [7]).2.1 h1 h2⟩

end DataUtils

namespace GarchModels

/-- C1 (recursion modelled from the spec, see `condVar`): under the
parameter constraints ω > 0, α ≥ 0, β ≥ 0 and a positive initial
variance, the conditional-variance sequence satisfies
σ²ₜ₊₁ = ω + α·ε²ₜ + β·σ²ₜ exactly, and every σ²ₜ is strictly positive. -/
theorem condVar_recursion_and_positive (omega alpha beta v1 : ℝ) (eps : ℕ → ℝ)
    (homega : 0 < omega) (halpha : 0 ≤ alpha) (hbeta : 0 ≤ beta) (hv1 : 0 < v1) :
    (∀ t, condVar omega alpha beta v1 eps (t + 1) =
        omega + alpha * (eps t) ^ 2 + beta * condVar omega alpha beta v1 eps t) ∧
    (∀ t, 0 < condVar omega alpha beta v1 eps t) := by
  refine ⟨fun t => rfl, ?_⟩
  intro t
  induction t with
  | zero => exact hv1
  | succ t ih =>
    have h1 : 0 ≤ alpha * (eps t) ^ 2 := mul_nonneg halpha (sq_nonneg _)
    have h2 : 0 ≤ beta * condVar omega alpha beta v1 eps t := mul_nonneg hbeta ih.le
    have hstep : condVar omega alpha beta v1 eps (t + 1) =
        omega + alpha * (eps t) ^ 2 + beta * condVar omega alpha beta v1 eps t := rfl
    rw [hstep]
    linarith

/-- Witness for `condVar_recursion_and_positive` at
ω = 1, α = 1/2, β = 1/4, σ²₁ = 1 and constant residuals. -/
theorem condVar_recursion_and_positive_witness :
    (0 : ℝ) < 1 ∧ (0 : ℝ) ≤ 1 / 2 ∧
    0 < condVar 1 (1 / 2) (1 / 4) 1 (fun _ => 1) 3 :=
  ⟨by norm_num, by norm_num,
    (condVar_recursion_and_positive 1 (1 / 2) (1 / 4) 1 (fun _ => 1)
      (by norm_num) (by norm_num) (by norm_num) (by norm_num)).2 3⟩

/-- Dropping the `NaN` markers from a constant list of present values
keeps every element. -/
lemma filterMap_id_replicate_some (n : ℕ) (x : ℝ) :
    ((List.replicate n (some x)).filterMap id).length = n := by
  induction n with
  | zero => rfl
  | succ n ih => simp [List.replicate_succ, List.filterMap_cons, ih]

/-- Mapping by squares keeps the length of the residual series. -/
lemma squaredStdResid_length (fm : FittedModel) :
    (squaredStdResid fm).length = (calculate_residuals fm).length := by
  simp [squaredStdResid]

/-- C2: the Ljung-Box statistic is `N(N+2) Σ_(k=1..L) ρₖ²/(N-k)` where
`ρₖ` is the lag-`k` autocorrelation (`pandas`' `Series.autocorr`) of the
squared standardized residuals, the p-value is `1 - CDF(χ²_L, Q)` and
the critical value is the 0.95 χ²_L quantile. -/
theorem ljung_box_spec (chi2cdf : ℕ → ℝ → ℝ) (chi2ppf : ℝ → ℕ → ℝ)
    (fm : FittedModel) (L : ℕ)
    (hN : L + 1 < (calculate_residuals fm).length) :
    (ljung_box_test chi2cdf chi2ppf fm L).test_statistic =
      ((calculate_residuals fm).length : ℝ) * (((calculate_residuals fm).length : ℝ) + 2) *
        ∑ k ∈ Finset.Icc 1 L,
          (autocorrLag (squaredStdResid fm) k) ^ 2 /
            (((calculate_residuals fm).length : ℝ) - (k : ℝ)) ∧
    (ljung_box_test chi2cdf chi2ppf fm L).p_value =
      1 - chi2cdf L ((ljung_box_test chi2cdf chi2ppf fm L).test_statistic) ∧
    (ljung_box_test chi2cdf chi2ppf fm L).critical_value = chi2ppf 0.95 L := by
  refine ⟨?_, rfl, rfl⟩
  show ljung_box_stat (squaredStdResid fm) L = _
  unfold ljung_box_stat
  rw [squaredStdResid_length]
  congr 1
  rw [← Nat.Ico_succ_right, Finset.sum_Ico_eq_sum_range]
  apply Finset.sum_congr
  · norm_num
  · intro i _
    rw [add_comm 1 i]
    congr 1
    push_cast
    ring

/-- Witness for `ljung_box_spec` on standardized residuals
`[1, 2, 3, 4]` with one lag. -/
theorem ljung_box_spec_witness :
    1 + 1 < (calculate_residuals fmW2).length ∧
    (ljung_box_test cdfZero ppfZero fmW2 1).critical_value = ppfZero 0.95 1 := by
  have h : 1 + 1 < (calculate_residuals fmW2).length := by
    norm_num [calculate_residuals, fmW2]
  exact ⟨h, (ljung_box_spec cdfZero ppfZero fmW2 1 h).2.2⟩

/-- C3: `arch_lm_test` solves the normal equations of the regression of
the squared standardized residual on its `L` lags plus an intercept and
reports statistic `(N - L)·R²`; whenever `R² ∈ [0,1]` (and the
chi-squared CDF takes values in `[0,1]`, as every CDF does) the
statistic is non-negative and the p-value lies in `[0,1]`; the critical
value is the 0.95 χ²_L quantile. -/
theorem arch_lm_spec (chi2cdf : ℕ → ℝ → ℝ) (chi2ppf : ℝ → ℕ → ℝ) (L : ℕ)
    (solve : Matrix (Fin (L + 1)) (Fin (L + 1)) ℝ → (Fin (L + 1) → ℝ) →
      Option (Fin (L + 1) → ℝ))
    (fm : FittedModel) (beta : Fin (L + 1) → ℝ)
    (hN : L < (calculate_residuals fm).length)
    (hsolve : solve (arch_XtX (squaredStdResid fm) L) (arch_Xty (squaredStdResid fm) L) =
      some beta)
    (hr2lo : 0 ≤ arch_r2 (squaredStdResid fm) L beta)
    (hr2hi : arch_r2 (squaredStdResid fm) L beta ≤ 1)
    (hcdf : ∀ (d : ℕ) (x : ℝ), 0 ≤ chi2cdf d x ∧ chi2cdf d x ≤ 1) :
    ∃ res : TestResult,
      arch_lm_test chi2cdf chi2ppf L solve fm = some res ∧
      res.test_statistic =
        (((calculate_residuals fm).length : ℝ) - (L : ℝ)) *
          arch_r2 (squaredStdResid fm) L beta ∧
      0 ≤ res.test_statistic ∧
      res.p_value = 1 - chi2cdf L res.test_statistic ∧
      0 ≤ res.p_value ∧ res.p_value ≤ 1 ∧
      res.critical_value = chi2ppf 0.95 L := by
  have hmain : arch_lm_test chi2cdf chi2ppf L solve fm =
      some { test_statistic := (((calculate_residuals fm).length : ℝ) - (L : ℝ)) *
               arch_r2 (squaredStdResid fm) L beta
             p_value := 1 - chi2cdf L ((((calculate_residuals fm).length : ℝ) - (L : ℝ)) *
               arch_r2 (squaredStdResid fm) L beta)
             lags := L
             critical_value := chi2ppf 0.95 L } := by
    simp [arch_lm_test, hsolve, squaredStdResid_length]
  have hNL : (L : ℝ) ≤ ((calculate_residuals fm).length : ℝ) := by
    exact_mod_cast hN.le
  have hstat : 0 ≤ (((calculate_residuals fm).length : ℝ) - (L : ℝ)) *
      arch_r2 (squaredStdResid fm) L beta :=
    mul_nonneg (by linarith) hr2lo
  have hcdfL := hcdf L ((((calculate_residuals fm).length : ℝ) - (L : ℝ)) *
    arch_r2 (squaredStdResid fm) L beta)
  exact ⟨_, hmain, rfl, hstat, rfl, by linarith [hcdfL.2], by linarith [hcdfL.1], rfl⟩

/-- Witness for `arch_lm_spec` on standardized residuals `[1, 2, 3]`,
one lag, and the mean-fitting coefficients, for which `R² = 0`. -/
theorem arch_lm_spec_witness :
    0 ≤ arch_r2 (squaredStdResid fmW3) 1 betaW ∧
    (∃ res : TestResult,
      arch_lm_test cdfHalf ppfZero 1 solveW fmW3 = some res ∧
      res.test_statistic =
        (((calculate_residuals fmW3).length : ℝ) - ((1 : ℕ) : ℝ)) *
          arch_r2 (squaredStdResid fmW3) 1 betaW ∧
      0 ≤ res.test_statistic ∧
      res.p_value = 1 - cdfHalf 1 res.test_statistic ∧
      0 ≤ res.p_value ∧ res.p_value ≤ 1 ∧
      res.critical_value = ppfZero 0.95 1) := by
  have hr2 : arch_r2 (squaredStdResid fmW3) 1 betaW = 0 := by
    norm_num [arch_r2, arch_fitted, archX, archY, squaredStdResid, calculate_residuals,
      fmW3, betaW, Finset.sum_range_succ, Fin.sum_univ_two]
  have hN : 1 < (calculate_residuals fmW3).length := by
    norm_num [calculate_residuals, fmW3]
  refine ⟨by rw [hr2], arch_lm_spec cdfHalf ppfZero 1 solveW fmW3 betaW hN rfl
    (by rw [hr2]) (by rw [hr2]; norm_num) ?_⟩
  intro d x
  constructor <;> norm_num [cdfHalf]

/-- C4 counterexample: `get_model_summary` reports the `omega`
parameter of the 100x-scaled fit verbatim (10000 here), not the
original-unit value (1); the summary is not rescaled back. -/
theorem get_model_summary_not_rescaled_cex :
    get_model_summary fmW4 ≠ get_model_summary_rescaled fmW4 := by
  norm_num [get_model_summary, get_model_summary_rescaled, fmW4]

/-- C4 amended: `fit_garch` hands the library the returns multiplied by
100 and returns the library's fitted model unchanged; only
`forecast_volatility` converts back from the percentage scale
(volatility divided by 100, variance by 10000), while
`get_model_summary` reports the fitted model's parameters, AIC, BIC and
log-likelihood verbatim in the scaled units. -/
theorem scaling_behaviour (fitLib : ModelSpec → Except PyError FittedModel)
    (st : GARCHModelState) (returns : List (Option ℝ)) (p q : ℕ) (dist : String)
    (forecastLib : FittedModel → ℕ → Option (List ℝ)) (fm : FittedModel)
    (h : ℕ) (var : List ℝ)
    (hlen : 50 ≤ (returns.filterMap id).length)
    (hfc : forecastLib fm h = some var) :
    (fit_garch fitLib st returns p q dist).2 =
      (fitLib { returns_scaled := (returns.filterMap id).map (fun r => r * 100),
                p := p, q := q, dist := dist }).toOption ∧
    forecast_volatility forecastLib fm h =
      some { volatility_forecast := var.map (fun v => Real.sqrt v / 100)
             variance_forecast := var.map (fun v => v / 10000)
             forecast_horizon := h } ∧
    get_model_summary fm =
      some { parameters := fm.params, aic := fm.aic, bic := fm.bic,
             loglikelihood := fm.loglikelihood, num_observations := fm.nobs } := by
  refine ⟨?_, ?_, rfl⟩
  · have hnot : ¬ (returns.filterMap id).length < 50 := not_lt.mpr hlen
    cases hfit : fitLib ⟨(returns.filterMap id).map (fun r => r * 100), p, q, dist⟩ with
    | error e => simp [fit_garch, fit_garch_body, hnot, hfit, Except.toOption]
    | ok fmv => simp [fit_garch, fit_garch_body, hnot, hfit, Except.toOption]
  · simp [forecast_volatility, hfc]

/-- Witness for `scaling_behaviour` with 50 clean observations and a
one-step variance forecast of 4 (percent² units). -/
theorem scaling_behaviour_witness :
    50 ≤ ((List.replicate 50 (some (1 : ℝ))).filterMap id).length ∧
    forecast_volatility (fun _ _ => some [(4 : ℝ)]) fmW4 1 =
      some { volatility_forecast := [(4 : ℝ)].map (fun v => Real.sqrt v / 100)
             variance_forecast := [(4 : ℝ)].map (fun v => v / 10000)
             forecast_horizon := 1 } := by
  have hlen : 50 ≤ ((List.replicate 50 (some (1 : ℝ))).filterMap id).length := by
    rw [filterMap_id_replicate_some]
  exact ⟨hlen, (scaling_behaviour fitLibFail initState _ 1 1 "normal"
    (fun _ _ => some [(4 : ℝ)]) fmW4 1 [4] hlen rfl).2.1⟩

/-- C5 counterexample: two failures of different kinds — insufficient
data in `fit_garch` and a singular matrix in the ARCH-LM OLS step — are
both reported to the caller as the same untyped `None`, so no typed
`InsufficientDataError` or `NumericalInstabilityError` reaches the
caller and the kinds are indistinguishable. -/
theorem untyped_failure_collapse_cex :
    (fit_garch fitLibFail initState (List.replicate 49 (some (1 : ℝ))) 1 1 "normal").2 =
      none ∧
    arch_lm_test cdfHalf ppfZero 1 solveFail fmW3 = none := by
  constructor
  · have hlt : ((List.replicate 49 (some (1 : ℝ))).filterMap id).length < 50 := by
      rw [filterMap_id_replicate_some]
      norm_num
    simp [fit_garch, fit_garch_body, hlt, Except.toOption]
  · simp [arch_lm_test, solveFail]

/-- C5 amended: every failure in a core operation is caught and
reported to the caller as a bare `None` — the raised error (of whatever
kind, including the `LinAlgError` of a singular ARCH-LM system) never
reaches the caller. -/
theorem failures_reported_as_none :
    (∀ (fitLib : ModelSpec → Except PyError FittedModel) (st : GARCHModelState)
        (returns : List (Option ℝ)) (p q : ℕ) (dist : String) (e : PyError),
      (fit_garch_body fitLib st returns p q dist).2 = Except.error e →
      (fit_garch fitLib st returns p q dist).2 = none) ∧
    (∀ (forecastLib : FittedModel → ℕ → Option (List ℝ)) (fm : FittedModel) (h : ℕ),
      forecastLib fm h = none → forecast_volatility forecastLib fm h = none) ∧
    (∀ (chi2cdf : ℕ → ℝ → ℝ) (chi2ppf : ℝ → ℕ → ℝ) (L : ℕ)
        (solve : Matrix (Fin (L + 1)) (Fin (L + 1)) ℝ → (Fin (L + 1) → ℝ) →
          Option (Fin (L + 1) → ℝ)) (fm : FittedModel),
      solve (arch_XtX (squaredStdResid fm) L) (arch_Xty (squaredStdResid fm) L) = none →
      arch_lm_test chi2cdf chi2ppf L solve fm = none) := by
  refine ⟨?_, ?_, ?_⟩
  · intro fitLib st returns p q dist e herr
    simp [fit_garch, herr, Except.toOption]
  · intro forecastLib fm h hnone
    unfold forecast_volatility
    rw [hnone]
  · intro chi2cdf chi2ppf L solve fm hnone
    simp [arch_lm_test, hnone]

/-- Witness for `failures_reported_as_none`: the empty return series
raises the insufficient-data `ValueError` inside the body, and the
caller sees `None`. -/
theorem failures_reported_as_none_witness :
    (fit_garch_body fitLibFail initState ([] : List (Option ℝ)) 1 1 "normal").2 =
      Except.error (PyError.valueError insufficientDataMsg) ∧
    (fit_garch fitLibFail initState ([] : List (Option ℝ)) 1 1 "normal").2 = none := by
  have herr : (fit_garch_body fitLibFail initState ([] : List (Option ℝ)) 1 1 "normal").2 =
      Except.error (PyError.valueError insufficientDataMsg) := by
    norm_num [fit_garch_body]
  exact ⟨herr, failures_reported_as_none.1 fitLibFail initState [] 1 1 "normal" _ herr⟩

/-- C7: `fit_garch` raises its insufficient-data `ValueError` exactly
when the cleaned return series has fewer than 50 observations (the
caller then sees `None`); with 50 or more the estimation is attempted —
the result is exactly whatever the external library's fit returns. -/
theorem fit_garch_insufficient_data_boundary :
    ∀ (fitLib : ModelSpec → Except PyError FittedModel) (st : GARCHModelState)
      (returns : List (Option ℝ)) (p q : ℕ) (dist : String),
      ((returns.filterMap id).length < 50 →
        (fit_garch_body fitLib st returns p q dist).2 =
          Except.error (PyError.valueError insufficientDataMsg) ∧
        (fit_garch fitLib st returns p q dist).2 = none) ∧
      (50 ≤ (returns.filterMap id).length →
        (fit_garch_body fitLib st returns p q dist).2 =
          fitLib { returns_scaled := (returns.filterMap id).map (fun r => r * 100),
                   p := p, q := q, dist := dist }) := by
  intro fitLib st returns p q dist
  constructor
  · intro hlt
    have h1 : (fit_garch_body fitLib st returns p q dist).2 =
        Except.error (PyError.valueError insufficientDataMsg) := by
      simp [fit_garch_body, hlt]
    exact ⟨h1, by simp [fit_garch, h1, Except.toOption]⟩
  · intro hge
    have hnot : ¬ (returns.filterMap id).length < 50 := not_lt.mpr hge
    cases hfit : fitLib ⟨(returns.filterMap id).map (fun r => r * 100), p, q, dist⟩ with
    | error e => simp [fit_garch_body, hnot, hfit]
    | ok fmv => simp [fit_garch_body, hnot, hfit]

/-- Witness for `fit_garch_insufficient_data_boundary` at the boundary:
49 clean observations fail, 50 reach the library fit. -/
theorem fit_garch_insufficient_data_boundary_witness :
    ((List.replicate 49 (some (1 : ℝ))).filterMap id).length < 50 ∧
    (fit_garch fitLibFail initState (List.replicate 49 (some (1 : ℝ))) 1 1 "normal").2 =
      none ∧
    50 ≤ ((List.replicate 50 (some (1 : ℝ))).filterMap id).length ∧
    (fit_garch_body fitLibFail initState (List.replicate 50 (some (1 : ℝ))) 1 1 "normal").2 =
      fitLibFail { returns_scaled :=
                     ((List.replicate 50 (some (1 : ℝ))).filterMap id).map (fun r => r * 100),
                   p := 1, q := 1, dist := "normal" } := by
  have h49 : ((List.replicate 49 (some (1 : ℝ))).filterMap id).length < 50 := by
    rw [filterMap_id_replicate_some]
    norm_num
  have h50 : 50 ≤ ((List.replicate 50 (some (1 : ℝ))).filterMap id).length := by
    rw [filterMap_id_replicate_some]
  exact ⟨h49,
    ((fit_garch_insufficient_data_boundary fitLibFail initState _ 1 1 "normal").1 h49).2,
    h50,
    (fit_garch_insufficient_data_boundary fitLibFail initState _ 1 1 "normal").2 h50⟩

/-- C9: the value `fit_garch` returns to the caller never depends on
the instance state left behind by earlier calls — `fit_garch` writes
`self.model` and `self.fitted_model` but neither it nor any other
method reads them (every other method receives the fitted model as an
explicit argument and is embedded without a state parameter). -/
theorem fit_result_state_independent :
    ∀ (fitLib : ModelSpec → Except PyError FittedModel) (st st' : GARCHModelState)
      (returns : List (Option ℝ)) (p q : ℕ) (dist : String),
      (fit_garch fitLib st returns p q dist).2 =
        (fit_garch fitLib st' returns p q dist).2 ∧
      (fit_garch_body fitLib st returns p q dist).2 =
        (fit_garch_body fitLib st' returns p q dist).2 := by
  intro fitLib st st' returns p q dist
  have hbody : (fit_garch_body fitLib st returns p q dist).2 =
      (fit_garch_body fitLib st' returns p q dist).2 := by
    by_cases hlt : (returns.filterMap id).length < 50
    · simp [fit_garch_body, hlt]
    · cases hfit : fitLib ⟨(returns.filterMap id).map (fun r => r * 100), p, q, dist⟩ with
      | error e => simp [fit_garch_body, hlt, hfit]
      | ok fmv => simp [fit_garch_body, hlt, hfit]
  exact ⟨by simp [fit_garch, hbody], hbody⟩

end GarchModels
